import Mathlib

/-!
Shallow embedding of the mock-interview-platform session core.

Sources embedded:
- backend/routes/interviewRoutes.js : question generation parsing,
  POST /start (CreateSession), PUT /:id/answer (SaveAnswer).
- backend/sockets/interviewSocketHandlers.js : the completeAndEvaluate
  socket handler (CompleteAndEvaluate).
- backend/models/interviewSession.model.js : the session / question schema
  with its defaults.

Machine strings are Lean Strings; JavaScript string helpers (trim, split,
startsWith, endsWith, regex prefix match) are embedded as executable
functions over the character list. External services (Gemini text
generation, Google speech-to-text) appear as oracle function parameters;
a failure of such a call is the Except/Option error case.
-/

/-- JavaScript String.prototype.trim on a character list: drop whitespace
from both ends. -/
def trimChars (cs : List Char) : List Char :=
  ((cs.dropWhile Char.isWhitespace).reverse.dropWhile Char.isWhitespace).reverse

/-- Trimmed string, as in JavaScript trim(). -/
def strTrim (s : String) : String := String.mk (trimChars s.data)

/-- True when the string trims to empty, i.e. its JS trim() is falsy. -/
def blank (s : String) : Bool := (trimChars s.data).isEmpty

/-- True when the string is empty, i.e. the JS string itself is falsy. -/
def strIsEmpty (s : String) : Bool := s.data.isEmpty

/-- JavaScript startsWith(p): p is a prefix of s. -/
def strStartsWith (p s : String) : Bool := p.data.isPrefixOf s.data

/-- Splitting a character list at newline characters, accumulator form;
mirrors JavaScript split('\n') (an empty input yields one empty piece). -/
def splitLinesAux : List Char → List Char → List (List Char)
  | [], acc => [acc.reverse]
  | c :: cs, acc =>
      if c = '\n' then acc.reverse :: splitLinesAux cs []
      else splitLinesAux cs (c :: acc)

/-- The lines of a response, as produced by responseContent.split('\n'). -/
def splitLines (s : String) : List String :=
  (splitLinesAux s.data []).map String.mk

/-- The test line.match(/^\s*\d+\./): optional leading whitespace, then at
least one digit, then a literal dot. -/
def matchesNumberDot (s : String) : Bool :=
  let cs := s.data.dropWhile Char.isWhitespace
  let ds := cs.takeWhile Char.isDigit
  !ds.isEmpty && ((cs.dropWhile Char.isDigit).head? == some '.')

/-- The transformation line.replace(/^\s*\d+\.\s*/, '').trim(): strip the
leading whitespace, digits and dot, then trim. -/
def stripNumberDot (s : String) : String :=
  let cs := (s.data.dropWhile Char.isWhitespace).dropWhile Char.isDigit
  let cs := match cs with
    | c :: rest => if c = '.' then rest else c :: rest
    | [] => []
  String.mk (trimChars cs)

/-- The kept-question filter q.length > 10 && q.endsWith('?'). -/
def isValidQuestion (q : String) : Bool :=
  decide (10 < q.data.length) && (q.data.getLast? == some '?')

/-- The question-list parsing pipeline of generateInterviewQuestions in
backend/routes/interviewRoutes.js: split the response on newlines, keep
the numbered lines, strip the number prefix and trim, keep only lines
longer than 10 characters that end in a question mark. -/
def parseQuestions (r : String) : List String :=
  ((((splitLines r).filter matchesNumberDot).map stripNumberDot).filter
    isValidQuestion)

/-- The status enum of interviewSessionSchema in
backend/models/interviewSession.model.js. -/
inductive Status where
  | pending
  | inProgress
  | completed
  | evaluated
deriving Repr, DecidableEq

/-- The aiCategoryScores subdocument of questionSchema. -/
structure CategoryScores where
  technical : Nat
  behavioral : Nat
  softSkills : Nat
deriving Repr, DecidableEq

/-- A question subdocument (questionSchema in
backend/models/interviewSession.model.js). The Mongo subdocument id is
qid; timestamps are elided. -/
structure Question where
  qid : Nat
  questionText : String
  questionType : String := "general"
  userAnswer : String := ""
  userAudioUrl : Option String := none
  userAudioTranscription : String := ""
  aiFeedbackSummary : String := ""
  aiStrengths : List String := []
  aiAreasForImprovement : List String := []
  aiCategoryScores : CategoryScores := ⟨0, 0, 0⟩
  aiScore : Nat := 0
  isAnswered : Bool := false
deriving Repr, DecidableEq

/-- An interview session document (interviewSessionSchema). Job/skill/user
references are numeric ids; times are abstract Nat instants. -/
structure InterviewSession where
  sid : Nat
  userId : Nat
  selectedJobs : List Nat
  selectedSkills : List Nat
  resumeText : String := ""
  generatedQuestions : List Question
  overallScore : Rat := 0
  status : Status := .pending
  startTime : Nat := 0
  endTime : Option Nat := none
deriving Repr, DecidableEq

/-- A media upload: req.file from multer (mimetype and raw bytes). -/
structure MediaFile where
  mimetype : String
  bytes : List Nat
deriving Repr, DecidableEq

/-- The speech-to-text oracle: speechClient.recognize, yielding either the
joined transcript or an error message. -/
def Transcriber : Type := MediaFile → Except String String

/-- Failure responses of the save-answer route (HTTP 404 / 403). -/
inductive SaveError where
  | notFound
  | forbidden
deriving Repr, DecidableEq

/-- The check mediaFile.mimetype.startsWith('audio') ||
mediaFile.mimetype.startsWith('video'). -/
def isAVMime (m : String) : Bool :=
  strStartsWith "audio" m || strStartsWith "video" m

/-- True when the route's media branch is taken: a file is present and its
MIME type is audio or video. -/
def mediaEligible : Option MediaFile → Bool
  | some m => isAVMime m.mimetype
  | none => false

/-- The sanitized file extension:
mimetype.split('/')[1].split(';')[0].replace(/[^a-z0-9]/gi, '_'). -/
def sanitizeExt (mimetype : String) : String :=
  let second := ((mimetype.splitOn "/").getD 1 "")
  let beforeSemi := ((second.splitOn ";").getD 0 "")
  String.mk (beforeSemi.data.map (fun c => if c.isAlphanum then c else '_'))

/-- The stored media path /uploads/interviewId_questionId_now.ext. -/
def uploadUrl (sid qid now : Nat) (mimetype : String) : String :=
  "/uploads/" ++ toString sid ++ "_" ++ toString qid ++ "_" ++ toString now
    ++ "." ++ sanitizeExt mimetype

/-- Mongo positional update generatedQuestions.$: apply f to the first
question whose id matches, leave everything else in place. -/
def updateFirst (qid : Nat) (f : Question → Question) :
    List Question → List Question
  | [] => []
  | q :: qs =>
      if q.qid = qid then f q :: qs else q :: updateFirst qid f qs

/-- The transcription value produced inside the media branch: the oracle's
transcript on success, the marker string on a speech-to-text error. -/
def transcriptionResult (ts : Transcriber) (m : MediaFile) : String :=
  match ts m with
  | .ok t => t
  | .error e => "Transcription failed: " ++ e

/-- The flag newIsAnswered = (!!userAnswer && userAnswer.trim().length > 0)
|| (!!userAudioTranscription && userAudioTranscription.trim().length > 0). -/
def computeIsAnswered (userAnswer : Option String) (tr : String) : Bool :=
  (match userAnswer with
    | some a => !(blank a)
    | none => false)
  || (!(strIsEmpty tr) && !(blank tr))

/-- Media processing of PUT /:id/answer: when a file with an audio/video
MIME type is present, store it (yielding the upload URL) and transcribe
it; otherwise userAudioUrl is null and the transcription is empty. -/
def saveUrlTr (ts : Transcriber) (now sid qid : Nat)
    (media : Option MediaFile) : Option String × String :=
  match media with
  | some m =>
      if isAVMime m.mimetype then
        (some (uploadUrl sid qid now m.mimetype), transcriptionResult ts m)
      else (none, "")
  | none => (none, "")

/-- The $set of PUT /:id/answer applied to one question: write
userAnswer (defaulting to the empty string), userAudioUrl,
userAudioTranscription and the derived isAnswered. -/
def saveUpdate (ts : Transcriber) (now sid qid : Nat)
    (ua : Option String) (media : Option MediaFile) (q : Question) :
    Question :=
  let urlTr := saveUrlTr ts now sid qid media
  { q with userAnswer := ua.getD "", userAudioUrl := urlTr.1,
           userAudioTranscription := urlTr.2,
           isAnswered := computeIsAnswered ua urlTr.2 }

/-- PUT /:id/answer in backend/routes/interviewRoutes.js: authorize, look
up the question, process an optional media file (store it and run the
transcriber, a transcriber failure becoming a marker string), then apply
one positional $set of the four answer fields of that question. Returns
the updated session and the route's response (the updated question on
success). -/
def saveAnswer (ts : Transcriber) (now : Nat) (requesterId : Nat)
    (questionId : Nat) (userAnswer : Option String)
    (media : Option MediaFile) (s : InterviewSession) :
    InterviewSession × Except SaveError Question :=
  if s.userId ≠ requesterId then (s, .error .forbidden)
  else if (s.generatedQuestions.find? (fun q => q.qid == questionId)).isNone
    then (s, .error .notFound)
  else
    let qs := updateFirst questionId
      (saveUpdate ts now s.sid questionId userAnswer media)
      s.generatedQuestions
    let s2 := { s with generatedQuestions := qs }
    match qs.find? (fun q => q.qid == questionId) with
    | some uq => (s2, .ok uq)
    | none => (s2, .error .notFound)

/-- A successfully parsed evaluator response: the fields extracted by the
Summary/Strengths/Areas/Score regex matches in the completeAndEvaluate
handler of backend/sockets/interviewSocketHandlers.js. -/
structure EvalResult where
  summary : String
  strengths : List String
  improvements : List String
  score : Nat
  cats : CategoryScores
deriving Repr, DecidableEq

/-- The answer-evaluation oracle: a Gemini call on the prompt built from
the question and its answer content; none is a thrown geminiError. -/
def Evaluator : Type := Question → String → Option EvalResult

/-- The loop guard hasContent = !!question.userAnswer?.trim() ||
!!question.userAudioTranscription?.trim(). -/
def hasContent (q : Question) : Bool :=
  !(blank q.userAnswer) || !(blank q.userAudioTranscription)

/-- The prompt content: answerContent = question.userAudioTranscription ||
question.userAnswer (JS falsy test on the empty string). -/
def answerContent (q : Question) : String :=
  if q.userAudioTranscription = "" then q.userAnswer
  else q.userAudioTranscription

/-- A successful per-question evaluation writes the parsed feedback fields
and score onto the question. -/
def applyEval (q : Question) (r : EvalResult) : Question :=
  { q with aiFeedbackSummary := r.summary, aiStrengths := r.strengths,
           aiAreasForImprovement := r.improvements,
           aiCategoryScores := r.cats, aiScore := r.score }

/-- The catch branch of a failed per-question evaluation: fixed failure
summary, zero scores; strengths/improvements are left untouched. -/
def applyEvalFail (q : Question) : Question :=
  { q with aiFeedbackSummary := "Evaluation failed due to AI error.",
           aiScore := 0, aiCategoryScores := ⟨0, 0, 0⟩ }

/-- Accumulated result of the per-question evaluation loop: the processed
questions in order, the running totalScore and questionsEvaluatedCount,
and the evaluator invocations (question id, submitted answer content). -/
structure CAEPass where
  questions : List Question
  totalScore : Nat
  evalCount : Nat
  calls : List (Nat × String)
deriving Repr, DecidableEq

/-- The for-loop of completeAndEvaluate: questions without content pass
through unchanged; each question with content is submitted to the
evaluator; a successful evaluation adds its score to totalScore and bumps
questionsEvaluatedCount, a failed one writes the failure marker fields and
adds nothing to either accumulator. -/
def caeProcess (ev : Evaluator) : List Question → CAEPass
  | [] => ⟨[], 0, 0, []⟩
  | q :: qs =>
      let r := caeProcess ev qs
      if hasContent q then
        match ev q (answerContent q) with
        | some er =>
            ⟨applyEval q er :: r.questions, er.score + r.totalScore,
             r.evalCount + 1, (q.qid, answerContent q) :: r.calls⟩
        | none =>
            ⟨applyEvalFail q :: r.questions, r.totalScore, r.evalCount,
             (q.qid, answerContent q) :: r.calls⟩
      else ⟨q :: r.questions, r.totalScore, r.evalCount, r.calls⟩

/-- A completeAndEvaluate callback payload; overallScore is present only
in the full-success payload (the already-evaluated early return sends
only status and message). -/
structure CAEReply where
  status : Nat
  message : String
  overallScore : Option Rat := none
deriving Repr, DecidableEq

/-- The completeAndEvaluate socket handler: authorize; if the session is
already evaluated acknowledge without touching it; otherwise set
endTime, run the evaluation loop, store the processed questions, set
overallScore to totalScore / questionsEvaluatedCount (0 when that count
is 0), mark the session evaluated and save once. Returns the session, the
callback payload, and the evaluator invocations made. -/
def completeAndEvaluate (ev : Evaluator) (requesterId : Nat)
    (now : Nat) (s : InterviewSession) :
    InterviewSession × CAEReply × List (Nat × String) :=
  if s.userId ≠ requesterId then
    (s, { status := 403, message := "Not authorized." }, [])
  else if s.status = .evaluated then
    (s, { status := 200, message := "Interview already evaluated." }, [])
  else
    let r := caeProcess ev s.generatedQuestions
    let score : Rat :=
      if r.evalCount > 0 then (r.totalScore : Rat) / (r.evalCount : Rat)
      else 0
    let s2 := { s with generatedQuestions := r.questions,
                       overallScore := score, status := .evaluated,
                       endTime := some now }
    (s2,
     { status := 200, message := "Interview completed and evaluated!",
       overallScore := some score },
     r.calls)

/-- Failure responses of POST /start: the 400 validation rejection and the
500 generation failure (thrown generator error or zero valid questions). -/
inductive StartError where
  | validationFailure (msg : String)
  | generationFailure (msg : String)
deriving Repr, DecidableEq

/-- A freshly generated question: only questionText is set, every other
field takes its schema default. -/
def mkQuestion (i : Nat) (text : String) : Question :=
  { qid := i, questionText := text }

/-- POST /start in backend/routes/interviewRoutes.js: reject when jobs or
skills are empty; on a generator throw or an empty parsed question list
fail with nothing persisted; otherwise persist a new in-progress session
holding the parsed questions. genResponse is the Gemini response text or
the thrown error. -/
def createSession (genResponse : Except String String) (newId : Nat)
    (userId : Nat) (jobs skills : List Nat) (resumeText : String) :
    Except StartError InterviewSession :=
  if jobs.isEmpty || skills.isEmpty then
    .error (.validationFailure
      "At least one job and one skill must be selected to start an interview.")
  else
    match genResponse with
    | .error e => .error (.generationFailure e)
    | .ok txt =>
        let qtexts := parseQuestions txt
        if qtexts.isEmpty then
          .error (.generationFailure
            "Gemini AI did not return any valid questions.")
        else
          .ok { sid := newId, userId := userId, selectedJobs := jobs,
                selectedSkills := skills, resumeText := resumeText,
                generatedQuestions :=
                  qtexts.enum.map (fun p => mkQuestion p.1 p.2),
                status := .inProgress }

/-- Forward order of the status state machine. -/
def statusRank : Status → Nat
  | .pending => 0
  | .inProgress => 1
  | .completed => 2
  | .evaluated => 3

/-- One server-side mutation of an existing session: a save-answer route
call or a completeAndEvaluate socket call. -/
inductive SessionStep : InterviewSession → InterviewSession → Prop
  | save (ts : Transcriber) (now requesterId questionId : Nat)
      (ua : Option String) (media : Option MediaFile)
      (s : InterviewSession) :
      SessionStep s (saveAnswer ts now requesterId questionId ua media s).1
  | evaluate (ev : Evaluator) (requesterId now : Nat)
      (s : InterviewSession) :
      SessionStep s (completeAndEvaluate ev requesterId now s).1

/-- The score carried by an optional evaluation result (0 for a failed
call, matching the catch branch). -/
def scoreOfOpt : Option EvalResult → Nat
  | some r => r.score
  | none => 0

/-- True when the evaluation loop both submits this question and gets a
successful evaluator response for it. -/
def evalSucceeds (ev : Evaluator) (q : Question) : Bool :=
  hasContent q && (ev q (answerContent q)).isSome

/-- Modelled from the spec: the overallScore the specification describes,
the arithmetic mean of aiScore over the questions with isAnswered true
(0 when there are none). Used to compare the implementation against the
spec sentence. -/
def meanAnsweredAiScore (qs : List Question) : Rat :=
  let answered := qs.filter (fun q => q.isAnswered)
  if answered.length > 0 then
    (((answered.map Question.aiScore).sum : Nat) : Rat) /
      (answered.length : Rat)
  else 0

/-- The derived-flag invariant of the spec: isAnswered holds exactly when
the trimmed userAnswer or the trimmed transcription is non-empty. -/
def answeredInvariant (q : Question) : Prop :=
  q.isAnswered = (!(blank q.userAnswer) || !(blank q.userAudioTranscription))

/-- Two questions agreeing on every field other than the four answer
fields (userAnswer, userAudioUrl, userAudioTranscription, isAnswered). -/
def sameExceptAnswerFields (q q' : Question) : Prop :=
  q'.qid = q.qid ∧ q'.questionText = q.questionText ∧
  q'.questionType = q.questionType ∧
  q'.aiFeedbackSummary = q.aiFeedbackSummary ∧
  q'.aiStrengths = q.aiStrengths ∧
  q'.aiAreasForImprovement = q.aiAreasForImprovement ∧
  q'.aiCategoryScores = q.aiCategoryScores ∧
  q'.aiScore = q.aiScore

/-- A transcriber whose speech-to-text call always succeeds. -/
def tsOk : Transcriber := fun _ => .ok "spoken answer text"

/-- A transcriber whose speech-to-text call always rejects. -/
def tsFail : Transcriber := fun _ => .error "boom"

/-- A recorded audio blob. -/
def mediaWebm : MediaFile := { mimetype := "audio/webm", bytes := [1, 2] }

/-- A fresh unanswered question. -/
def qA : Question :=
  { qid := 0, questionText := "Tell me about your testing experience?" }

/-- A second fresh unanswered question. -/
def qB : Question :=
  { qid := 1, questionText := "Why do you want this role here?" }

/-- A question that already holds a stored recording and transcript. -/
def qWithMedia : Question :=
  { qid := 0, questionText := "Tell me about your testing experience?",
    userAudioUrl := some "/uploads/1_0_3.webm",
    userAudioTranscription := "older recorded words", isAnswered := true }

/-- An in-progress session owned by user 7 with two fresh questions. -/
def baseSession : InterviewSession :=
  { sid := 1, userId := 7, selectedJobs := [3], selectedSkills := [4],
    generatedQuestions := [qA, qB], status := .inProgress }

/-- A session whose first question already has a recording stored. -/
def mediaSession : InterviewSession :=
  { sid := 1, userId := 7, selectedJobs := [3], selectedSkills := [4],
    generatedQuestions := [qWithMedia, qB], status := .inProgress }

/-- An answered question (text answer only). -/
def qAns1 : Question :=
  { qid := 0, questionText := "Tell me about your testing experience?",
    userAnswer := "I built a parser", isAnswered := true }

/-- A second answered question (text answer only). -/
def qAns2 : Question :=
  { qid := 1, questionText := "Why do you want this role here?",
    userAnswer := "I led a small team", isAnswered := true }

/-- An in-progress session in which both questions are answered. -/
def sTwoAnswered : InterviewSession :=
  { sid := 2, userId := 7, selectedJobs := [3], selectedSkills := [4],
    generatedQuestions := [qAns1, qAns2], status := .inProgress }

/-- An already-evaluated session. -/
def sEvaluated : InterviewSession :=
  { sid := 3, userId := 7, selectedJobs := [3], selectedSkills := [4],
    generatedQuestions := [qAns1], overallScore := 6,
    status := .evaluated }

/-- An evaluator that always succeeds with score 8. -/
def evAll8 : Evaluator := fun _ _ =>
  some { summary := "fine", strengths := ["clear"],
         improvements := ["more detail"], score := 8, cats := ⟨8, 8, 8⟩ }

/-- An evaluator that fails on question 0 and scores question 1 with 8:
a partial per-question evaluation failure. -/
def evHalf : Evaluator := fun q _ =>
  if q.qid = 0 then none
  else some { summary := "fine", strengths := [], improvements := [],
              score := 8, cats := ⟨8, 8, 8⟩ }

/-- A generation response holding a single well-formed numbered question. -/
def r6w : String := "1. Could you explain recursion today?"

/-- A generation response holding two well-formed numbered questions. -/
def r6cex : String :=
  "1. Could you explain recursion today?\n2. Why do you want this role here?"

lemma saveUpdate_qid (ts : Transcriber) (now sid qid : Nat)
    (ua : Option String) (media : Option MediaFile) (q : Question) :
    (saveUpdate ts now sid qid ua media q).qid = q.qid := rfl

lemma blank_empty : blank "" = true := by decide

lemma blank_of_isEmpty {s : String} (h : strIsEmpty s = true) :
    blank s = true := by
  unfold strIsEmpty at h
  unfold blank trimChars
  cases hd : s.data with
  | nil => simp
  | cons a l => rw [hd] at h; simp at h

lemma nonEmpty_and_nonBlank (s : String) :
    (!(strIsEmpty s) && !(blank s)) = !(blank s) := by
  by_cases h : strIsEmpty s = true
  · simp [h, blank_of_isEmpty h]
  · rw [Bool.not_eq_true] at h
    simp [h]

lemma computeIsAnswered_eq (ua : Option String) (tr : String) :
    computeIsAnswered ua tr = (!(blank (ua.getD "")) || !(blank tr)) := by
  cases ua with
  | none => simp [computeIsAnswered, blank_empty, nonEmpty_and_nonBlank]
  | some a => simp [computeIsAnswered, nonEmpty_and_nonBlank]

lemma updateFirst_decomp (f : Question → Question) (qid : Nat)
    (qs : List Question) (q0 : Question)
    (h : qs.find? (fun q => q.qid == qid) = some q0) :
    ∃ pre post, qs = pre ++ q0 :: post ∧ (∀ p ∈ pre, p.qid ≠ qid) ∧
      q0.qid = qid ∧ updateFirst qid f qs = pre ++ f q0 :: post := by
  induction qs with
  | nil => simp at h
  | cons q qs ih =>
      by_cases hq : q.qid = qid
      · rw [List.find?_cons_of_pos _ (by simpa using hq)] at h
        obtain rfl : q = q0 := Option.some.inj h
        exact ⟨[], qs, rfl, by simp, hq, by simp [updateFirst, hq]⟩
      · rw [List.find?_cons_of_neg _ (by simpa using hq)] at h
        obtain ⟨pre, post, h1, h2, h3, h4⟩ := ih h
        refine ⟨q :: pre, post, by simp [h1], ?_, h3, ?_⟩
        · intro p hp
          rcases List.mem_cons.mp hp with rfl | hp
          · exact hq
          · exact h2 p hp
        · simp [updateFirst, hq, h4]

lemma updateFirst_comm (qid1 qid2 : Nat) (f g : Question → Question)
    (hf : ∀ q, (f q).qid = q.qid) (hg : ∀ q, (g q).qid = q.qid)
    (hne : qid1 ≠ qid2) (qs : List Question) :
    updateFirst qid1 f (updateFirst qid2 g qs) =
      updateFirst qid2 g (updateFirst qid1 f qs) := by
  induction qs with
  | nil => simp [updateFirst]
  | cons q qs ih =>
      by_cases h1 : q.qid = qid1
      · have h2 : ¬(q.qid = qid2) := by rw [h1]; exact hne
        simp only [updateFirst]
        rw [if_neg h2, if_pos h1]
        simp only [updateFirst]
        rw [if_pos h1, if_neg (show ¬(f q).qid = qid2 by
          rw [hf q]; exact h2)]
      · by_cases h2 : q.qid = qid2
        · simp only [updateFirst]
          rw [if_pos h2, if_neg h1]
          simp only [updateFirst]
          rw [if_neg (show ¬(g q).qid = qid1 by rw [hg q]; exact h1),
            if_pos h2]
        · simp only [updateFirst]
          rw [if_neg h1, if_neg h2]
          simp only [updateFirst]
          rw [if_neg h1, if_neg h2, ih]

lemma find?_updateFirst_isSome (qid2 qid : Nat) (f : Question → Question)
    (hf : ∀ q, (f q).qid = q.qid) (qs : List Question) :
    ((updateFirst qid2 f qs).find? (fun q => q.qid == qid)).isSome =
      (qs.find? (fun q => q.qid == qid)).isSome := by
  induction qs with
  | nil => simp [updateFirst]
  | cons q qs ih =>
      simp only [updateFirst]
      by_cases h2 : q.qid = qid2
      · rw [if_pos h2]
        by_cases hq : q.qid = qid
        · rw [List.find?_cons_of_pos _ (by simp [hf q, hq]),
            List.find?_cons_of_pos _ (by simp [hq])]
          rfl
        · rw [List.find?_cons_of_neg _ (by simp [hf q, hq]),
            List.find?_cons_of_neg _ (by simp [hq])]
      · rw [if_neg h2]
        by_cases hq : q.qid = qid
        · rw [List.find?_cons_of_pos _ (by simp [hq]),
            List.find?_cons_of_pos _ (by simp [hq])]
        · rw [List.find?_cons_of_neg _ (by simp [hq]),
            List.find?_cons_of_neg _ (by simp [hq]), ih]

lemma find?_append_left_none {α} (p : α → Bool) (pre l : List α)
    (h : ∀ x ∈ pre, p x = false) :
    (pre ++ l).find? p = l.find? p := by
  induction pre with
  | nil => rfl
  | cons a pre ih =>
      rw [List.cons_append, List.find?_cons_of_neg _ (by simp [h a])]
      exact ih (fun x hx => h x (by simp [hx]))

lemma saveAnswer_spec (ts : Transcriber) (now u qid : Nat)
    (ua : Option String) (media : Option MediaFile) (s : InterviewSession)
    (q0 : Question) (h1 : s.userId = u)
    (h2 : s.generatedQuestions.find? (fun q => q.qid == qid) = some q0) :
    ∃ pre post,
      s.generatedQuestions = pre ++ q0 :: post ∧
      (∀ p ∈ pre, p.qid ≠ qid) ∧ q0.qid = qid ∧
      saveAnswer ts now u qid ua media s =
        ({ s with generatedQuestions :=
             pre ++ saveUpdate ts now s.sid qid ua media q0 :: post },
         .ok (saveUpdate ts now s.sid qid ua media q0)) := by
  obtain ⟨pre, post, hsplit, hpre, hq0, hupd⟩ :=
    updateFirst_decomp (saveUpdate ts now s.sid qid ua media) qid _ q0 h2
  refine ⟨pre, post, hsplit, hpre, hq0, ?_⟩
  have hfind2 : (updateFirst qid (saveUpdate ts now s.sid qid ua media)
      s.generatedQuestions).find? (fun q => q.qid == qid) =
      some (saveUpdate ts now s.sid qid ua media q0) := by
    rw [hupd, find?_append_left_none _ pre _
      (fun p hp => by simpa using hpre p hp)]
    rw [List.find?_cons_of_pos _ (by simp [saveUpdate_qid, hq0])]
  unfold saveAnswer
  rw [if_neg (by simp [h1]), if_neg (by simp [h2])]
  rw [hupd] at hfind2
  simp only [hupd, hfind2]

lemma saveAnswer_fst (ts : Transcriber) (now u qid : Nat)
    (ua : Option String) (media : Option MediaFile) (s : InterviewSession) :
    (saveAnswer ts now u qid ua media s).1 =
      if s.userId = u ∧
          (s.generatedQuestions.find? (fun q => q.qid == qid)).isSome = true
      then { s with generatedQuestions :=
              (updateFirst qid (saveUpdate ts now s.sid qid ua media)
                s.generatedQuestions) }
      else s := by
  unfold saveAnswer
  by_cases h1 : s.userId = u
  · cases hf : s.generatedQuestions.find? (fun q => q.qid == qid) with
    | none =>
        rw [if_neg (by simp [h1]), if_pos (by simp [hf]),
          if_neg (by simp [hf])]
    | some q0 =>
        rw [if_neg (by simp [h1]), if_neg (by simp [hf]),
          if_pos ⟨h1, by simp [hf]⟩]
        cases hfind : (updateFirst qid (saveUpdate ts now s.sid qid ua media)
            s.generatedQuestions).find? (fun q => q.qid == qid) <;>
          simp [hfind]
  · rw [if_pos h1, if_neg (fun hc => h1 hc.1)]

lemma saveAnswer_comm (ts ts2 : Transcriber) (now now2 u qid qid2 : Nat)
    (ua ua2 : Option String) (media media2 : Option MediaFile)
    (s : InterviewSession) (hne : qid2 ≠ qid) :
    (saveAnswer ts2 now2 u qid2 ua2 media2
        (saveAnswer ts now u qid ua media s).1).1 =
    (saveAnswer ts now u qid ua media
        (saveAnswer ts2 now2 u qid2 ua2 media2 s).1).1 := by
  by_cases h1 : s.userId = u
  · by_cases hA :
      (s.generatedQuestions.find? (fun q => q.qid == qid)).isSome = true
    · by_cases hB :
        (s.generatedQuestions.find? (fun q => q.qid == qid2)).isSome = true
      · have tA : ((updateFirst qid2
            (saveUpdate ts2 now2 s.sid qid2 ua2 media2)
            s.generatedQuestions).find?
              (fun q => q.qid == qid)).isSome = true := by
          rw [find?_updateFirst_isSome qid2 qid
            (saveUpdate ts2 now2 s.sid qid2 ua2 media2) (fun q => rfl)]
          exact hA
        have tB : ((updateFirst qid
            (saveUpdate ts now s.sid qid ua media)
            s.generatedQuestions).find?
              (fun q => q.qid == qid2)).isSome = true := by
          rw [find?_updateFirst_isSome qid qid2
            (saveUpdate ts now s.sid qid ua media) (fun q => rfl)]
          exact hB
        have hcomm := updateFirst_comm qid2 qid
          (saveUpdate ts2 now2 s.sid qid2 ua2 media2)
          (saveUpdate ts now s.sid qid ua media)
          (fun q => rfl) (fun q => rfl) hne s.generatedQuestions
        simp [saveAnswer_fst, h1, hA, hB, tA, tB, hcomm]
      · have tB2 : ((updateFirst qid
            (saveUpdate ts now s.sid qid ua media)
            s.generatedQuestions).find?
              (fun q => q.qid == qid2)).isSome = false := by
          rw [find?_updateFirst_isSome qid qid2
            (saveUpdate ts now s.sid qid ua media) (fun q => rfl)]
          simpa using hB
        simp [saveAnswer_fst, h1, hA, hB, tB2]
    · by_cases hB :
        (s.generatedQuestions.find? (fun q => q.qid == qid2)).isSome = true
      · have tA2 : ((updateFirst qid2
            (saveUpdate ts2 now2 s.sid qid2 ua2 media2)
            s.generatedQuestions).find?
              (fun q => q.qid == qid)).isSome = false := by
          rw [find?_updateFirst_isSome qid2 qid
            (saveUpdate ts2 now2 s.sid qid2 ua2 media2) (fun q => rfl)]
          simpa using hA
        simp [saveAnswer_fst, h1, hA, hB, tA2]
      · simp [saveAnswer_fst, h1, hA, hB]
  · simp [saveAnswer_fst, h1]

lemma caeProcess_totals (ev : Evaluator) (qs : List Question) :
    (caeProcess ev qs).totalScore =
      ((qs.filter (evalSucceeds ev)).map
        (fun q => scoreOfOpt (ev q (answerContent q)))).sum ∧
    (caeProcess ev qs).evalCount = (qs.filter (evalSucceeds ev)).length := by
  induction qs with
  | nil => simp [caeProcess]
  | cons q qs ih =>
      by_cases hc : hasContent q = true
      · cases hev : ev q (answerContent q) with
        | some er =>
            have hs : evalSucceeds ev q = true := by
              simp [evalSucceeds, hc, hev]
            simp [caeProcess, hc, hev, List.filter_cons, hs, ih.1, ih.2,
              scoreOfOpt]
        | none =>
            have hs : evalSucceeds ev q = false := by
              simp [evalSucceeds, hev]
            simp [caeProcess, hc, hev, List.filter_cons, hs, ih.1, ih.2]
      · have hs : evalSucceeds ev q = false := by
          simp [evalSucceeds, hc]
        simp [caeProcess, hc, List.filter_cons, hs, ih.1, ih.2]

lemma caeProcess_calls (ev : Evaluator) (qs : List Question) (q : Question)
    (hq : q ∈ qs) (hc : hasContent q = true) :
    (q.qid, answerContent q) ∈ (caeProcess ev qs).calls := by
  induction qs with
  | nil => cases hq
  | cons p qs ih =>
      rcases List.mem_cons.mp hq with rfl | hq2
      · cases hev : ev q (answerContent q) <;> simp [caeProcess, hc, hev]
      · by_cases hcp : hasContent p = true
        · cases hev : ev p (answerContent p) <;>
            simp [caeProcess, hcp, hev, ih hq2]
        · simp [caeProcess, hcp, ih hq2]

lemma blank_eq_false (s : String) (c : Char) (hc : c ∈ s.data)
    (hw : c.isWhitespace = false) : blank s = false := by
  unfold blank trimChars
  rw [Bool.eq_false_iff]
  intro hemp
  rw [List.isEmpty_iff] at hemp
  have h1 : (s.data.dropWhile Char.isWhitespace).reverse.dropWhile
      Char.isWhitespace = [] := by
    simpa using congrArg List.reverse hemp
  have h2 := List.dropWhile_eq_nil_iff.mp h1
  have hcmem : c ∈ s.data.dropWhile Char.isWhitespace := by
    have hsplit : c ∈ s.data.takeWhile Char.isWhitespace ++
        s.data.dropWhile Char.isWhitespace := by
      rw [List.takeWhile_append_dropWhile]; exact hc
    rcases List.mem_append.mp hsplit with h | h
    · have := List.mem_takeWhile_imp h
      rw [hw] at this
      cases this
    · exact h
  have := h2 c (List.mem_reverse.mpr hcmem)
  rw [hw] at this
  cases this

lemma marker_mem_T (msg : String) :
    'T' ∈ ("Transcription failed: " ++ msg).data := by
  rw [String.data_append]
  exact List.mem_append_left _ (by decide)

lemma blank_marker (msg : String) :
    blank ("Transcription failed: " ++ msg) = false :=
  blank_eq_false _ 'T' (marker_mem_T msg) (by decide)

lemma marker_ne_empty (msg : String) :
    ("Transcription failed: " ++ msg) ≠ "" := by
  intro h
  have := congrArg String.data h
  rw [String.data_append] at this
  rcases List.append_eq_nil.mp this with ⟨h1, _⟩
  simp at h1

lemma saveUrlTr_not_eligible (ts : Transcriber) (now sid qid : Nat)
    (media : Option MediaFile) (h : mediaEligible media = false) :
    saveUrlTr ts now sid qid media = (none, "") := by
  cases media with
  | none => rfl
  | some m =>
      have h2 : isAVMime m.mimetype = false := h
      simp [saveUrlTr, h2]

lemma saveUrlTr_av (ts : Transcriber) (now sid qid : Nat) (m : MediaFile)
    (hav : isAVMime m.mimetype = true) :
    saveUrlTr ts now sid qid (some m) =
      (some (uploadUrl sid qid now m.mimetype), transcriptionResult ts m) := by
  simp [saveUrlTr, hav]

lemma completeAndEvaluate_run (ev : Evaluator) (u now : Nat)
    (s : InterviewSession) (h1 : s.userId = u) (h2 : s.status ≠ .evaluated) :
    completeAndEvaluate ev u now s =
      ({ s with
          generatedQuestions := (caeProcess ev s.generatedQuestions).questions,
          overallScore :=
            (if (caeProcess ev s.generatedQuestions).evalCount > 0 then
              ((caeProcess ev s.generatedQuestions).totalScore : Rat) /
                ((caeProcess ev s.generatedQuestions).evalCount : Rat)
            else 0),
          status := .evaluated, endTime := some now },
       { status := 200, message := "Interview completed and evaluated!",
         overallScore :=
           some (if (caeProcess ev s.generatedQuestions).evalCount > 0 then
              ((caeProcess ev s.generatedQuestions).totalScore : Rat) /
                ((caeProcess ev s.generatedQuestions).evalCount : Rat)
            else 0) },
       (caeProcess ev s.generatedQuestions).calls) := by
  unfold completeAndEvaluate
  rw [if_neg (by simp [h1]), if_neg h2]

lemma completeAndEvaluate_of_evaluated (ev : Evaluator) (u now : Nat)
    (s : InterviewSession) (h2 : s.status = .evaluated) :
    (completeAndEvaluate ev u now s).1 = s := by
  unfold completeAndEvaluate
  by_cases h1 : s.userId = u
  · rw [if_neg (by simp [h1]), if_pos h2]
  · rw [if_pos h1]

lemma completeAndEvaluate_status_cases (ev : Evaluator) (u now : Nat)
    (s : InterviewSession) :
    (completeAndEvaluate ev u now s).1.status = s.status ∨
    (completeAndEvaluate ev u now s).1.status = .evaluated := by
  unfold completeAndEvaluate
  by_cases h1 : s.userId = u
  · by_cases h2 : s.status = .evaluated
    · left; rw [if_neg (by simp [h1]), if_pos h2]
    · right; rw [if_neg (by simp [h1]), if_neg h2]
  · left; rw [if_pos h1]

lemma saveAnswer_status (ts : Transcriber) (now u qid : Nat)
    (ua : Option String) (media : Option MediaFile) (s : InterviewSession) :
    (saveAnswer ts now u qid ua media s).1.status = s.status := by
  rw [saveAnswer_fst]
  split <;> rfl

/-- C3: a successful SaveAnswer updates, via the single conditional update
keyed by (sessionId, questionId), only the four answer fields of exactly
the first question whose id matches: every other question in the list and
every session-level field is unchanged, and two saves against two
distinct questions of the same session commute, so concurrent saves to
different questions never clobber each other's fields. -/
theorem C3_save_frame (ts : Transcriber) (now u qid : Nat)
    (ua : Option String) (media : Option MediaFile) (s : InterviewSession)
    (h1 : s.userId = u)
    (h2 : (s.generatedQuestions.find? (fun q => q.qid == qid)).isSome = true) :
    (∃ pre q0 post q1,
      s.generatedQuestions = pre ++ q0 :: post ∧
      (saveAnswer ts now u qid ua media s).1.generatedQuestions =
        pre ++ q1 :: post ∧
      (∀ p ∈ pre, p.qid ≠ qid) ∧ q0.qid = qid ∧
      (saveAnswer ts now u qid ua media s).2 = .ok q1 ∧
      sameExceptAnswerFields q0 q1) ∧
    (saveAnswer ts now u qid ua media s).1.sid = s.sid ∧
    (saveAnswer ts now u qid ua media s).1.userId = s.userId ∧
    (saveAnswer ts now u qid ua media s).1.selectedJobs = s.selectedJobs ∧
    (saveAnswer ts now u qid ua media s).1.selectedSkills =
      s.selectedSkills ∧
    (saveAnswer ts now u qid ua media s).1.resumeText = s.resumeText ∧
    (saveAnswer ts now u qid ua media s).1.overallScore = s.overallScore ∧
    (saveAnswer ts now u qid ua media s).1.status = s.status ∧
    (saveAnswer ts now u qid ua media s).1.startTime = s.startTime ∧
    (saveAnswer ts now u qid ua media s).1.endTime = s.endTime ∧
    (∀ (ts2 : Transcriber) (now2 qid2 : Nat) (ua2 : Option String)
        (media2 : Option MediaFile), qid2 ≠ qid →
      (saveAnswer ts2 now2 u qid2 ua2 media2
          (saveAnswer ts now u qid ua media s).1).1 =
      (saveAnswer ts now u qid ua media
          (saveAnswer ts2 now2 u qid2 ua2 media2 s).1).1) := by
  obtain ⟨q0, hq0⟩ := Option.isSome_iff_exists.mp h2
  obtain ⟨pre, post, hsplit, hpre, hqid, heq⟩ :=
    saveAnswer_spec ts now u qid ua media s q0 h1 hq0
  refine ⟨⟨pre, q0, post, saveUpdate ts now s.sid qid ua media q0,
      hsplit, by rw [heq], hpre, hqid, by rw [heq],
      ⟨rfl, rfl, rfl, rfl, rfl, rfl, rfl, rfl⟩⟩,
    by rw [heq], by rw [heq], by rw [heq], by rw [heq], by rw [heq],
    by rw [heq], by rw [heq], by rw [heq], by rw [heq],
    fun ts2 now2 qid2 ua2 media2 hne =>
      saveAnswer_comm ts ts2 now now2 u qid qid2 ua ua2 media media2 s hne⟩

/-- C3 witness: the frame theorem applied to a concrete session, save and
question; the save leaves the session status untouched. -/
theorem C3_witness :
    baseSession.userId = 7 ∧
    ((baseSession.generatedQuestions.find?
      (fun q => q.qid == 0)).isSome = true) ∧
    (saveAnswer tsOk 5 7 0 (some "An elaborate answer") none
      baseSession).1.status = baseSession.status :=
  ⟨rfl, by decide,
   (C3_save_frame tsOk 5 7 0 (some "An elaborate answer") none baseSession
      rfl (by decide)).2.2.2.2.2.2.2.1⟩

/-- C4: after a successful SaveAnswer the saved question's isAnswered is
true exactly when its trimmed userAnswer or trimmed transcription is
non-empty; the invariant is preserved across the whole question list; and
a save with whitespace-only text and no audio/video media leaves
isAnswered false. -/
theorem C4_isAnswered_iff (ts : Transcriber) (now u qid : Nat)
    (ua : Option String) (media : Option MediaFile) (s : InterviewSession)
    (h1 : s.userId = u)
    (h2 : (s.generatedQuestions.find? (fun q => q.qid == qid)).isSome = true) :
    (∀ q1, (saveAnswer ts now u qid ua media s).2 = .ok q1 →
      answeredInvariant q1) ∧
    ((∀ q ∈ s.generatedQuestions, answeredInvariant q) →
      ∀ q ∈ (saveAnswer ts now u qid ua media s).1.generatedQuestions,
        answeredInvariant q) ∧
    (blank (ua.getD "") = true → mediaEligible media = false →
      ∀ q1, (saveAnswer ts now u qid ua media s).2 = .ok q1 →
        q1.isAnswered = false) := by
  obtain ⟨q0, hq0⟩ := Option.isSome_iff_exists.mp h2
  obtain ⟨pre, post, hsplit, hpre, hqid, heq⟩ :=
    saveAnswer_spec ts now u qid ua media s q0 h1 hq0
  have hupd : answeredInvariant (saveUpdate ts now s.sid qid ua media q0) := by
    unfold answeredInvariant saveUpdate
    dsimp only
    rw [computeIsAnswered_eq]
  refine ⟨?_, ?_, ?_⟩
  · intro q1 hq1
    rw [heq] at hq1
    injection hq1 with h
    rw [← h]
    exact hupd
  · intro hinv q hq
    rw [heq] at hq
    dsimp only at hq
    rcases List.mem_append.mp hq with h | h
    · exact hinv q (by rw [hsplit]; exact List.mem_append_left _ h)
    · rcases List.mem_cons.mp h with rfl | h
      · exact hupd
      · exact hinv q (by
          rw [hsplit]
          exact List.mem_append_right _ (List.mem_cons_of_mem _ h))
  · intro hblank hmedia q1 hq1
    rw [heq] at hq1
    injection hq1 with h
    rw [← h]
    show (saveUpdate ts now s.sid qid ua media q0).isAnswered = false
    unfold saveUpdate
    dsimp only
    rw [saveUrlTr_not_eligible ts now s.sid qid media hmedia]
    rw [computeIsAnswered_eq]
    simp [hblank, blank_empty]

/-- C4 witness: saving a whitespace-only text answer with no media on a
concrete session leaves the question unanswered. -/
theorem C4_witness :
    baseSession.userId = 7 ∧
    ((baseSession.generatedQuestions.find?
      (fun q => q.qid == 0)).isSome = true) ∧
    (∀ q1, (saveAnswer tsOk 5 7 0 (some "   ") none baseSession).2 =
        .ok q1 → q1.isAnswered = false) :=
  ⟨rfl, by decide,
   (C4_isAnswered_iff tsOk 5 7 0 (some "   ") none baseSession rfl
      (by decide)).2.2 (by decide) rfl⟩

/-- C5: a SaveAnswer with an audio/video blob whose transcription call
fails still succeeds: the question stores the non-empty failure marker as
its transcription, the supplied text answer, and the upload URL of the
stored media. -/
theorem C5_transcription_failure_saves (ts : Transcriber) (now u qid : Nat)
    (ua : Option String) (m : MediaFile) (msg : String)
    (s : InterviewSession) (h1 : s.userId = u)
    (h2 : (s.generatedQuestions.find? (fun q => q.qid == qid)).isSome = true)
    (hav : isAVMime m.mimetype = true) (hts : ts m = .error msg) :
    ∃ q1, (saveAnswer ts now u qid ua (some m) s).2 = .ok q1 ∧
      q1.userAudioTranscription = "Transcription failed: " ++ msg ∧
      q1.userAudioTranscription ≠ "" ∧
      q1.userAnswer = ua.getD "" ∧
      q1.userAudioUrl = some (uploadUrl s.sid qid now m.mimetype) := by
  obtain ⟨q0, hq0⟩ := Option.isSome_iff_exists.mp h2
  obtain ⟨pre, post, hsplit, hpre, hqid, heq⟩ :=
    saveAnswer_spec ts now u qid ua (some m) s q0 h1 hq0
  have htr : (saveUpdate ts now s.sid qid ua (some m) q0).userAudioTranscription =
      "Transcription failed: " ++ msg := by
    unfold saveUpdate
    dsimp only
    rw [saveUrlTr_av ts now s.sid qid m hav]
    unfold transcriptionResult
    rw [hts]
  refine ⟨saveUpdate ts now s.sid qid ua (some m) q0, by rw [heq], htr,
    ?_, rfl, ?_⟩
  · rw [htr]
    exact marker_ne_empty msg
  · unfold saveUpdate
    dsimp only
    rw [saveUrlTr_av ts now s.sid qid m hav]

/-- C5 witness: a concrete save whose transcriber rejects still returns
the saved question with marker transcription, text and media URL. -/
theorem C5_witness :
    baseSession.userId = 7 ∧ isAVMime mediaWebm.mimetype = true ∧
    tsFail mediaWebm = .error "boom" ∧
    (∃ q1, (saveAnswer tsFail 5 7 0 (some "typed text") (some mediaWebm)
        baseSession).2 = .ok q1 ∧
      q1.userAudioTranscription = "Transcription failed: " ++ "boom" ∧
      q1.userAudioTranscription ≠ "" ∧
      q1.userAnswer = (some "typed text").getD "" ∧
      q1.userAudioUrl = some (uploadUrl baseSession.sid 0 5
        mediaWebm.mimetype)) :=
  ⟨rfl, by decide, rfl,
   C5_transcription_failure_saves tsFail 5 7 0 (some "typed text") mediaWebm
     "boom" baseSession rfl (by decide) (by decide) rfl⟩

/-- C9: a SaveAnswer with no media blob (or one whose MIME type is neither
audio nor video) unconditionally writes userAudioUrl = null and an empty
transcription into the target question, whatever recording reference and
transcript that question previously held. -/
theorem C9_text_save_erases_media (ts : Transcriber) (now u qid : Nat)
    (ua : Option String) (media : Option MediaFile) (s : InterviewSession)
    (h1 : s.userId = u)
    (h2 : (s.generatedQuestions.find? (fun q => q.qid == qid)).isSome = true)
    (hm : mediaEligible media = false) :
    ∃ pre q0 post q1,
      s.generatedQuestions = pre ++ q0 :: post ∧
      (saveAnswer ts now u qid ua media s).1.generatedQuestions =
        pre ++ q1 :: post ∧
      q0.qid = qid ∧
      (saveAnswer ts now u qid ua media s).2 = .ok q1 ∧
      q1.userAudioUrl = none ∧
      q1.userAudioTranscription = "" := by
  obtain ⟨q0, hq0⟩ := Option.isSome_iff_exists.mp h2
  obtain ⟨pre, post, hsplit, hpre, hqid, heq⟩ :=
    saveAnswer_spec ts now u qid ua media s q0 h1 hq0
  refine ⟨pre, q0, post, saveUpdate ts now s.sid qid ua media q0, hsplit,
    by rw [heq], hqid, by rw [heq], ?_, ?_⟩
  · unfold saveUpdate
    dsimp only
    rw [saveUrlTr_not_eligible ts now s.sid qid media hm]
  · unfold saveUpdate
    dsimp only
    rw [saveUrlTr_not_eligible ts now s.sid qid media hm]

/-- C9 witness: a text-only save against a question that already holds a
recording erases the stored URL and transcript (the prior question had a
recording; the saved one has none). -/
theorem C9_witness :
    mediaSession.userId = 7 ∧
    ((mediaSession.generatedQuestions.find?
      (fun q => q.qid == 0)).isSome = true) ∧
    mediaEligible none = false ∧
    qWithMedia.userAudioUrl ≠ none ∧
    (∃ pre q0 post q1,
      mediaSession.generatedQuestions = pre ++ q0 :: post ∧
      (saveAnswer tsOk 5 7 0 (some "new text only") none
        mediaSession).1.generatedQuestions = pre ++ q1 :: post ∧
      q0.qid = 0 ∧
      (saveAnswer tsOk 5 7 0 (some "new text only") none
        mediaSession).2 = .ok q1 ∧
      q1.userAudioUrl = none ∧
      q1.userAudioTranscription = "") :=
  ⟨rfl, by decide, rfl, by decide,
   C9_text_save_erases_media tsOk 5 7 0 (some "new text only") none
     mediaSession rfl (by decide) rfl⟩

/-- C7: session creation is all-or-nothing: a thrown generator call or a
response parsing to zero valid questions yields a generation failure with
no session persisted, and every persisted session holds a non-empty
question list and status in-progress. -/
theorem C7_create_all_or_nothing (gen : Except String String)
    (newId uid : Nat) (jobs skills : List Nat) (rt : String)
    (hj : jobs ≠ []) (hk : skills ≠ []) :
    (∀ e, gen = .error e →
      createSession gen newId uid jobs skills rt =
        .error (.generationFailure e)) ∧
    (∀ txt, gen = .ok txt → parseQuestions txt = [] →
      createSession gen newId uid jobs skills rt =
        .error (.generationFailure
          "Gemini AI did not return any valid questions.")) ∧
    (∀ s, createSession gen newId uid jobs skills rt = .ok s →
      s.generatedQuestions ≠ [] ∧ s.status = .inProgress) := by
  have hv : ¬((jobs.isEmpty || skills.isEmpty) = true) := by
    simp [List.isEmpty_iff, hj, hk]
  refine ⟨?_, ?_, ?_⟩
  · intro e he
    subst he
    unfold createSession
    rw [if_neg hv]
  · intro txt ht hp
    subst ht
    unfold createSession
    rw [if_neg hv]
    dsimp only
    rw [if_pos (by simp [hp])]
  · intro s h
    unfold createSession at h
    rw [if_neg hv] at h
    cases gen with
    | error e => exact absurd h (by simp)
    | ok txt =>
        dsimp only at h
        by_cases hq : (parseQuestions txt).isEmpty = true
        · rw [if_pos hq] at h
          exact absurd h (by simp)
        · rw [if_neg hq] at h
          injection h with h2
          constructor
          · rw [← h2]
            dsimp only
            intro hnil
            have hlen : (parseQuestions txt).length = 0 := by
              have := congrArg List.length hnil
              simpa using this
            have htxtne : parseQuestions txt ≠ [] := by
              simpa [List.isEmpty_iff] using hq
            exact htxtne (List.length_eq_zero.mp hlen)
          · rw [← h2]

/-- C7 witness: a failing generator call on valid inputs yields a
generation failure and persists nothing. -/
theorem C7_witness :
    ([3] : List Nat) ≠ [] ∧ ([4] : List Nat) ≠ [] ∧
    createSession (.error "rate limit") 1 7 [3] [4] "" =
      .error (.generationFailure "rate limit") :=
  ⟨by decide, by decide,
   (C7_create_all_or_nothing (.error "rate limit") 1 7 [3] [4] ""
      (by decide) (by decide)).1 "rate limit" rfl⟩

/-- C8: the status field only moves forward through pending, in-progress,
completed, evaluated: every save or evaluate step is monotone in that
order, evaluated is terminal for the status, and creation persists
sessions at in-progress. -/
theorem C8_status_forward_only :
    (∀ s s2, SessionStep s s2 →
      statusRank s.status ≤ statusRank s2.status ∧
      (s.status = .evaluated → s2.status = .evaluated)) ∧
    (∀ gen newId uid jobs skills rt s,
      createSession gen newId uid jobs skills rt = .ok s →
      s.status = .inProgress) := by
  constructor
  · intro s s2 hstep
    cases hstep with
    | save ts now u qid ua media s =>
        rw [saveAnswer_status]
        exact ⟨le_refl _, fun h => h⟩
    | evaluate ev u now s =>
        rcases completeAndEvaluate_status_cases ev u now s with h | h
        · rw [h]
          exact ⟨le_refl _, fun hh => hh⟩
        · rw [h]
          refine ⟨?_, fun _ => rfl⟩
          cases s.status <;> decide
  · intro gen newId uid jobs skills rt s h
    unfold createSession at h
    by_cases hv : (jobs.isEmpty || skills.isEmpty) = true
    · rw [if_pos hv] at h
      exact absurd h (by simp)
    · rw [if_neg hv] at h
      cases gen with
      | error e => exact absurd h (by simp)
      | ok txt =>
          dsimp only at h
          by_cases hq : (parseQuestions txt).isEmpty = true
          · rw [if_pos hq] at h
            exact absurd h (by simp)
          · rw [if_neg hq] at h
            injection h with h2
            rw [← h2]

/-- C8 witness: a concrete evaluate step on an in-progress session moves
the status rank forward. -/
theorem C8_witness :
    statusRank baseSession.status ≤
      statusRank (completeAndEvaluate evAll8 7 99 baseSession).1.status :=
  ((C8_status_forward_only).1 baseSession _
    (SessionStep.evaluate evAll8 7 99 baseSession)).1

lemma cae_already_evaluated (ev : Evaluator) (u now : Nat)
    (s : InterviewSession) (h1 : s.userId = u)
    (h2 : s.status = .evaluated) :
    completeAndEvaluate ev u now s =
      (s, { status := 200, message := "Interview already evaluated.",
            overallScore := none }, []) := by
  unfold completeAndEvaluate
  rw [if_neg (by simp [h1]), if_pos h2]

/-- C1 counterexample: with two answered questions, one failing evaluation
(score forced to 0) and one scoring 8, the code stores overallScore 8
(the failed question is dropped from the denominator), while the claimed
mean over the questions with isAnswered true is 4. -/
theorem C1_counterexample :
    (completeAndEvaluate evHalf 7 99 sTwoAnswered).1.overallScore = 8 ∧
    meanAnsweredAiScore
      (completeAndEvaluate evHalf 7 99 sTwoAnswered).1.generatedQuestions
      = 4 ∧
    (completeAndEvaluate evHalf 7 99 sTwoAnswered).1.overallScore ≠
      meanAnsweredAiScore
        (completeAndEvaluate evHalf 7 99
          sTwoAnswered).1.generatedQuestions := by
  have ht : (caeProcess evHalf sTwoAnswered.generatedQuestions).totalScore
      = 8 := by decide
  have hc : (caeProcess evHalf sTwoAnswered.generatedQuestions).evalCount
      = 1 := by decide
  have hover : (completeAndEvaluate evHalf 7 99
      sTwoAnswered).1.overallScore = 8 := by
    rw [completeAndEvaluate_run evHalf 7 99 sTwoAnswered rfl (by decide)]
    dsimp only
    rw [ht, hc]
    norm_num
  have hlen : (((caeProcess evHalf
      sTwoAnswered.generatedQuestions).questions).filter
        (fun q => q.isAnswered)).length = 2 := by decide
  have hsum : ((((caeProcess evHalf
      sTwoAnswered.generatedQuestions).questions).filter
        (fun q => q.isAnswered)).map Question.aiScore).sum = 8 := by decide
  have hmean : meanAnsweredAiScore (completeAndEvaluate evHalf 7 99
      sTwoAnswered).1.generatedQuestions = 4 := by
    rw [completeAndEvaluate_run evHalf 7 99 sTwoAnswered rfl (by decide)]
    unfold meanAnsweredAiScore
    dsimp only
    rw [hlen, hsum]
    norm_num
  refine ⟨hover, hmean, ?_⟩
  rw [hover, hmean]
  norm_num

/-- C1 amended: overallScore is the arithmetic mean of aiScore over the
answered questions whose evaluator call succeeded (0 when no call
succeeded); answered questions whose evaluation failed keep score 0 but
are excluded from the mean's denominator. -/
theorem C1_mean_over_successful (ev : Evaluator) (u now : Nat)
    (s : InterviewSession) (h1 : s.userId = u)
    (h2 : s.status ≠ .evaluated) :
    (completeAndEvaluate ev u now s).1.overallScore =
      (if (s.generatedQuestions.filter (evalSucceeds ev)).length > 0 then
        ((((s.generatedQuestions.filter (evalSucceeds ev)).map
            (fun q => scoreOfOpt (ev q (answerContent q)))).sum : Nat) : Rat) /
          ((s.generatedQuestions.filter (evalSucceeds ev)).length : Rat)
      else 0) := by
  rw [completeAndEvaluate_run ev u now s h1 h2]
  dsimp only
  rw [(caeProcess_totals ev s.generatedQuestions).1,
    (caeProcess_totals ev s.generatedQuestions).2]

/-- C1 witness: with an evaluator that always succeeds with score 8, a
session with two answered questions evaluates to overallScore 8. -/
theorem C1_witness :
    sTwoAnswered.userId = 7 ∧ sTwoAnswered.status ≠ .evaluated ∧
    (completeAndEvaluate evAll8 7 99 sTwoAnswered).1.overallScore = 8 :=
  ⟨rfl, by decide, by
    rw [C1_mean_over_successful evAll8 7 99 sTwoAnswered rfl (by decide)]
    have h1 : (sTwoAnswered.generatedQuestions.filter
        (evalSucceeds evAll8)).length = 2 := by decide
    have h2 : ((sTwoAnswered.generatedQuestions.filter
        (evalSucceeds evAll8)).map
          (fun q => scoreOfOpt (evAll8 q (answerContent q)))).sum = 16 := by
      decide
    rw [h1, h2]
    norm_num⟩

/-- C2 counterexample: the first completeAndEvaluate reply carries
overallScore 8, but the second call's already-evaluated reply carries no
overallScore at all, so the second call does not return the same
overallScore as the first. -/
theorem C2_counterexample :
    (completeAndEvaluate evAll8 7 99 sTwoAnswered).2.1.overallScore =
      some 8 ∧
    (completeAndEvaluate evAll8 7 100
      (completeAndEvaluate evAll8 7 99 sTwoAnswered).1).2.1.overallScore =
      none ∧
    (completeAndEvaluate evAll8 7 100
      (completeAndEvaluate evAll8 7 99 sTwoAnswered).1).2.1.overallScore ≠
    (completeAndEvaluate evAll8 7 99 sTwoAnswered).2.1.overallScore := by
  have ht : (caeProcess evAll8 sTwoAnswered.generatedQuestions).totalScore
      = 16 := by decide
  have hc : (caeProcess evAll8 sTwoAnswered.generatedQuestions).evalCount
      = 2 := by decide
  have hfirst : (completeAndEvaluate evAll8 7 99
      sTwoAnswered).2.1.overallScore = some 8 := by
    rw [completeAndEvaluate_run evAll8 7 99 sTwoAnswered rfl (by decide)]
    dsimp only
    rw [ht, hc]
    norm_num
  have hs1 : (completeAndEvaluate evAll8 7 99 sTwoAnswered).1.userId = 7 := by
    rw [completeAndEvaluate_run evAll8 7 99 sTwoAnswered rfl (by decide)]
    rfl
  have hs2 : (completeAndEvaluate evAll8 7 99 sTwoAnswered).1.status =
      .evaluated := by
    rw [completeAndEvaluate_run evAll8 7 99 sTwoAnswered rfl (by decide)]
  have hsecond : (completeAndEvaluate evAll8 7 100
      (completeAndEvaluate evAll8 7 99
        sTwoAnswered).1).2.1.overallScore = none := by
    rw [cae_already_evaluated evAll8 7 100 _ hs1 hs2]
  refine ⟨hfirst, hsecond, ?_⟩
  rw [hfirst, hsecond]
  simp

/-- C2 amended: a completeAndEvaluate call on an already-evaluated session
is a no-op success: it makes zero evaluator calls, leaves the session
(including its stored overallScore) unchanged, and acknowledges with
status 200 — but its reply does not include the overallScore value. -/
theorem C2_evaluate_idempotent_noop (ev : Evaluator) (u now : Nat)
    (s : InterviewSession) (h1 : s.userId = u)
    (h2 : s.status = .evaluated) :
    completeAndEvaluate ev u now s =
      (s, { status := 200, message := "Interview already evaluated.",
            overallScore := none }, []) := by
  unfold completeAndEvaluate
  rw [if_neg (by simp [h1]), if_pos h2]

/-- C2 witness: the no-op behavior on a concrete evaluated session. -/
theorem C2_witness :
    sEvaluated.userId = 7 ∧ sEvaluated.status = .evaluated ∧
    completeAndEvaluate evAll8 7 100 sEvaluated =
      (sEvaluated,
       { status := 200, message := "Interview already evaluated.",
         overallScore := none }, []) :=
  ⟨rfl, rfl, C2_evaluate_idempotent_noop evAll8 7 100 sEvaluated rfl rfl⟩

/-- C6 counterexample: a generation response parsing to two valid
questions yields a list of length 2, so the generator does not always
produce 5 to 7 questions. -/
theorem C6_counterexample :
    ¬(5 ≤ (parseQuestions r6cex).length ∧
      (parseQuestions r6cex).length ≤ 7) := by decide

/-- C6 amended: the generator output is exactly the numbered-list lines of
the response, in order, stripped of their number prefix, that exceed 10
characters and end in a question mark: every output ends in a question
mark and exceeds the minimum length, the output is an order-preserving
sublist of the stripped response lines, and every well-formed numbered
line is kept — but the output count is not constrained to 5–7. -/
theorem C6_parse_shape (r : String) :
    (∀ q ∈ parseQuestions r,
      q.data.getLast? = some '?' ∧ 10 < q.data.length) ∧
    List.Sublist (parseQuestions r)
      ((splitLines r).map stripNumberDot) ∧
    (∀ line ∈ splitLines r, matchesNumberDot line = true →
      isValidQuestion (stripNumberDot line) = true →
      stripNumberDot line ∈ parseQuestions r) := by
  refine ⟨?_, ?_, ?_⟩
  · intro q hq
    have hvq := (List.mem_filter.mp hq).2
    unfold isValidQuestion at hvq
    rw [Bool.and_eq_true] at hvq
    exact ⟨eq_of_beq hvq.2, of_decide_eq_true hvq.1⟩
  · exact (List.filter_sublist _).trans
      (List.Sublist.map stripNumberDot (List.filter_sublist _))
  · intro line hline hnum hvalid
    exact List.mem_filter.mpr
      ⟨List.mem_map_of_mem _ (List.mem_filter.mpr ⟨hline, hnum⟩), hvalid⟩

/-- C6 witness: the parse-shape theorem applied to a concrete one-line
response keeps its single well-formed question. -/
theorem C6_witness :
    stripNumberDot "1. Could you explain recursion today?" ∈
      parseQuestions r6w :=
  (C6_parse_shape r6w).2.2 "1. Could you explain recursion today?"
    (by decide) (by decide) (by decide)

/-- C10: a save whose text is blank but whose transcription call failed
leaves the question with the non-empty failure marker as transcription and
isAnswered true, and completeAndEvaluate treats it as answered: the
question is submitted to the evaluator with the marker (the transcription,
which takes priority over userAnswer whenever it is non-empty) as the
candidate's answer content. -/
theorem C10_marker_counts_answered (ts : Transcriber)
    (now now2 u qid : Nat) (ua : Option String) (m : MediaFile)
    (msg : String) (s : InterviewSession) (ev : Evaluator)
    (h1 : s.userId = u)
    (h2 : (s.generatedQuestions.find? (fun q => q.qid == qid)).isSome = true)
    (hav : isAVMime m.mimetype = true) (hts : ts m = .error msg)
    (hua : blank (ua.getD "") = true) (hst : s.status ≠ .evaluated) :
    ∃ q1, (saveAnswer ts now u qid ua (some m) s).2 = .ok q1 ∧
      blank q1.userAnswer = true ∧
      q1.userAudioTranscription = "Transcription failed: " ++ msg ∧
      q1.isAnswered = true ∧
      answerContent q1 = q1.userAudioTranscription ∧
      (q1.qid, "Transcription failed: " ++ msg) ∈
        (completeAndEvaluate ev u now2
          (saveAnswer ts now u qid ua (some m) s).1).2.2 := by
  obtain ⟨q0, hq0⟩ := Option.isSome_iff_exists.mp h2
  obtain ⟨pre, post, hsplit, hpre, hqid, heq⟩ :=
    saveAnswer_spec ts now u qid ua (some m) s q0 h1 hq0
  have htr : (saveUpdate ts now s.sid qid ua
      (some m) q0).userAudioTranscription =
      "Transcription failed: " ++ msg := by
    unfold saveUpdate
    dsimp only
    rw [saveUrlTr_av ts now s.sid qid m hav]
    unfold transcriptionResult
    rw [hts]
  have hansw : (saveUpdate ts now s.sid qid ua (some m) q0).isAnswered =
      true := by
    unfold saveUpdate
    dsimp only
    rw [computeIsAnswered_eq, saveUrlTr_av ts now s.sid qid m hav]
    dsimp only
    unfold transcriptionResult
    rw [hts]
    simp [blank_marker]
  have hac : answerContent (saveUpdate ts now s.sid qid ua (some m) q0) =
      (saveUpdate ts now s.sid qid ua (some m) q0).userAudioTranscription := by
    unfold answerContent
    rw [if_neg (by rw [htr]; exact marker_ne_empty msg)]
  have hcontent : hasContent (saveUpdate ts now s.sid qid ua (some m) q0) =
      true := by
    unfold hasContent
    rw [htr]
    simp [blank_marker]
  have hs1q : (saveAnswer ts now u qid ua (some m) s).1.generatedQuestions =
      pre ++ saveUpdate ts now s.sid qid ua (some m) q0 :: post := by
    rw [heq]
  have hs1uid : (saveAnswer ts now u qid ua (some m) s).1.userId = u := by
    rw [heq]
    exact h1
  have hs1st : (saveAnswer ts now u qid ua (some m) s).1.status ≠
      .evaluated := by
    rw [heq]
    exact hst
  refine ⟨saveUpdate ts now s.sid qid ua (some m) q0, by rw [heq], ?_, htr,
    hansw, hac, ?_⟩
  · show blank (ua.getD "") = true
    exact hua
  · rw [completeAndEvaluate_run ev u now2 _ hs1uid hs1st]
    dsimp only
    rw [hs1q]
    have hmem : saveUpdate ts now s.sid qid ua (some m) q0 ∈
        pre ++ saveUpdate ts now s.sid qid ua (some m) q0 :: post :=
      List.mem_append_right _ (List.mem_cons_self _ _)
    have hcall := caeProcess_calls ev
      (pre ++ saveUpdate ts now s.sid qid ua (some m) q0 :: post)
      (saveUpdate ts now s.sid qid ua (some m) q0) hmem hcontent
    rw [hac, htr] at hcall
    exact hcall

/-- C10 witness: a concrete blank-text save with a failing transcriber
produces an answered question whose marker is submitted to the
evaluator. -/
theorem C10_witness :
    baseSession.userId = 7 ∧
    ((baseSession.generatedQuestions.find?
      (fun q => q.qid == 0)).isSome = true) ∧
    isAVMime mediaWebm.mimetype = true ∧
    tsFail mediaWebm = .error "boom" ∧
    blank ((none : Option String).getD "") = true ∧
    baseSession.status ≠ .evaluated ∧
    (∃ q1, (saveAnswer tsFail 5 7 0 none (some mediaWebm)
        baseSession).2 = .ok q1 ∧
      blank q1.userAnswer = true ∧
      q1.userAudioTranscription = "Transcription failed: " ++ "boom" ∧
      q1.isAnswered = true ∧
      answerContent q1 = q1.userAudioTranscription ∧
      (q1.qid, "Transcription failed: " ++ "boom") ∈
        (completeAndEvaluate evAll8 7 9
          (saveAnswer tsFail 5 7 0 none (some mediaWebm)
            baseSession).1).2.2) :=
  ⟨rfl, by decide, by decide, rfl, by decide, by decide,
   C10_marker_counts_answered tsFail 5 9 7 0 none mediaWebm "boom"
     baseSession evAll8 rfl (by decide) (by decide) rfl (by decide)
     (by decide)⟩
